import Mathlib

/-!
Verification of the ybu-chooseclass-agent repository: a shallow embedding of the
pure decision logic of its agents (captcha solving, browser probing, retry
wrapper, availability parsing, SQLite-backed data manager) together with
theorems settling the specification claims.

Modelling conventions:
* Python byte strings are `List Nat`; Python dicts become structures; Python
  dict iteration order is list order.
* Side-effecting library calls (Playwright queries, OCR, PIL, sqlite/pandas)
  are inputs of the embedded functions: an environment record supplies the
  values those calls return, `Option`/`Except` encoding raised exceptions.
* Python `keyword in text` is substring containment, embedded as `pyIn`;
  `str.split`, `str.strip` and `int(...)` are embedded structurally over
  `List Char` so that every definition evaluates inside the kernel.
-/

namespace Ybu

/-- `startsWithL pat l`: the char list `pat` is an initial segment of `l`. -/
def startsWithL : List Char → List Char → Bool
  | [], _ => true
  | _ :: _, [] => false
  | a :: as, b :: bs => a == b && startsWithL as bs

/-- `hasSubL pat l`: `pat` occurs as a contiguous run inside `l`. -/
def hasSubL (pat : List Char) : List Char → Bool
  | [] => pat.isEmpty
  | c :: rest => startsWithL pat (c :: rest) || hasSubL pat rest

/-- Python's `pat in s` on strings: substring containment. -/
def pyIn (pat s : String) : Bool := hasSubL pat.toList s.toList

/-- Python's `any(k in s for k in kws)`. -/
def anyKeyword (kws : List String) (s : String) : Bool := kws.any (fun k => pyIn k s)

/-- ASCII whitespace stripped by Python's `str.strip()`. -/
def isPySpace (c : Char) : Bool :=
  c == ' ' || c == '\t' || c == '\n' || c == '\r' || c == '\x0b' || c == '\x0c'

/-- Strip leading and trailing whitespace from a char list. -/
def trimChars (l : List Char) : List Char :=
  ((l.dropWhile isPySpace).reverse.dropWhile isPySpace).reverse

/-- Python's `s.strip()`. -/
def pyStrip (s : String) : String := String.mk (trimChars s.toList)

/-- Decimal value of a digit list. -/
def digitsVal (l : List Char) : Nat := l.foldl (fun acc c => 10 * acc + (c.toNat - 48)) 0

/-- Python's `s.split(sep)` for a single-character separator, over chars. -/
def splitChars (sep : Char) : List Char → List (List Char)
  | [] => [[]]
  | c :: rest =>
    if c == sep then [] :: splitChars sep rest
    else
      match splitChars sep rest with
      | [] => [[c]]
      | g :: gs => (c :: g) :: gs

/-- Python's `s.split(sep)` for a single-character separator. -/
def pySplit (sep : Char) (s : String) : List String :=
  (splitChars sep s.toList).map String.mk

/-- Python's `int(s)`: strip whitespace, optional sign, decimal digits;
`none` models the `ValueError` raised on anything else. -/
def pyInt? (s : String) : Option Int :=
  let t := trimChars s.toList
  let core : Int × List Char :=
    match t with
    | '-' :: rest => (-1, rest)
    | '+' :: rest => (1, rest)
    | _ => (1, t)
  if !core.2.isEmpty && core.2.all Char.isDigit then
    some (core.1 * digitsVal core.2)
  else none

/-! ## DataManagerAgent: time conflicts (`data_manager_agent.py`) -/

/-- A row of `parse_schedule_from_details` / the `course_schedules` table. -/
structure Schedule where
  day_of_week : Int
  start_time : String
  end_time : String
  location : String
  teacher : String
deriving DecidableEq

/-- The `try` body of `_time_to_minutes`:
`hour, minute = map(int, s.split(':')); return hour * 60 + minute`, where
`none` models the `ValueError` raised on a malformed string. -/
def timeParse? (s : String) : Option Int :=
  match pySplit ':' s with
  | [h, m] =>
    match pyInt? h, pyInt? m with
    | some hv, some mv => some (hv * 60 + mv)
    | _, _ => none
  | _ => none

/-- `DataManagerAgent._time_to_minutes`: the `except` clause turns any parse
failure into 0. -/
def time_to_minutes (s : String) : Int := (timeParse? s).getD 0

/-- `DataManagerAgent._schedules_conflict` (the source binds the four
converted times to locals `start1`, `end1`, `start2`, `end2`). -/
def schedules_conflict (s1 s2 : Schedule) : Bool :=
  if s1.day_of_week ≠ s2.day_of_week then false
  else !(decide (time_to_minutes s1.end_time ≤ time_to_minutes s2.start_time)
        || decide (time_to_minutes s2.end_time ≤ time_to_minutes s1.start_time))

/-- A record appended by `check_time_conflicts`. -/
structure ConflictRec where
  new_course : Schedule
  existing_course : Schedule
  conflict_type : String
deriving DecidableEq

/-- Inner loop of `check_time_conflicts` over the existing schedules. -/
def innerConflicts (n : Schedule) : List Schedule → List ConflictRec
  | [] => []
  | o :: rest =>
    if schedules_conflict n o then
      ⟨n, o, "time_overlap"⟩ :: innerConflicts n rest
    else innerConflicts n rest

/-- `DataManagerAgent.check_time_conflicts`. -/
def check_time_conflicts : List Schedule → List Schedule → List ConflictRec
  | [], _ => []
  | n :: rest, olds => innerConflicts n olds ++ check_time_conflicts rest olds

theorem innerConflicts_length (n : Schedule) (olds : List Schedule) :
    (innerConflicts n olds).length = olds.countP (fun o => schedules_conflict n o) := by
  induction olds with
  | nil => rfl
  | cons o rest ih =>
    by_cases h : schedules_conflict n o = true
    · simp [innerConflicts, h, ih, List.countP_cons]
    · simp [innerConflicts, h, ih, List.countP_cons]

theorem innerConflicts_mem (n : Schedule) (olds : List Schedule) (c : ConflictRec) :
    c ∈ innerConflicts n olds ↔
      c.new_course = n ∧ c.existing_course ∈ olds ∧
        schedules_conflict n c.existing_course = true ∧ c.conflict_type = "time_overlap" := by
  induction olds with
  | nil => simp [innerConflicts]
  | cons o rest ih =>
    by_cases h : schedules_conflict n o = true
    · rw [innerConflicts, if_pos h]
      simp only [List.mem_cons, ih]
      constructor
      · rintro (rfl | ⟨h1, h2, h3, h4⟩)
        · exact ⟨rfl, Or.inl rfl, h, rfl⟩
        · exact ⟨h1, Or.inr h2, h3, h4⟩
      · rintro ⟨h1, h2 | h2, h3, h4⟩
        · left
          rcases c with ⟨cn, ce, ct⟩
          simp_all
        · right
          exact ⟨h1, h2, h3, h4⟩
    · rw [innerConflicts, if_neg h]
      rw [ih]
      constructor
      · rintro ⟨h1, h2, h3, h4⟩
        exact ⟨h1, List.mem_cons_of_mem _ h2, h3, h4⟩
      · rintro ⟨h1, h2, h3, h4⟩
        rcases List.mem_cons.mp h2 with h2 | h2
        · exact absurd (h2 ▸ h3) h
        · exact ⟨h1, h2, h3, h4⟩

theorem check_time_conflicts_length (news olds : List Schedule) :
    (check_time_conflicts news olds).length =
      (news.map (fun n => olds.countP (fun o => schedules_conflict n o))).sum := by
  induction news with
  | nil => rfl
  | cons n rest ih =>
    simp [check_time_conflicts, ih, innerConflicts_length]

theorem check_time_conflicts_mem (news olds : List Schedule) (c : ConflictRec) :
    c ∈ check_time_conflicts news olds ↔
      c.new_course ∈ news ∧ c.existing_course ∈ olds ∧
        schedules_conflict c.new_course c.existing_course = true ∧
        c.conflict_type = "time_overlap" := by
  induction news with
  | nil => simp [check_time_conflicts]
  | cons n rest ih =>
    simp only [check_time_conflicts, List.mem_append, ih, innerConflicts_mem,
      List.mem_cons]
    constructor
    · rintro (⟨h1, h2, h3, h4⟩ | ⟨h1, h2, h3, h4⟩)
      · exact ⟨Or.inl h1, h2, h1 ▸ h3, h4⟩
      · exact ⟨Or.inr h1, h2, h3, h4⟩
    · rintro ⟨(h1 | h1), h2, h3, h4⟩
      · exact Or.inl ⟨h1, h2, h1 ▸ h3, h4⟩
      · exact Or.inr ⟨h1, h2, h3, h4⟩

/-- C8: the conflict predicate is symmetric, returns false on different days,
treats touching intervals as non-conflicting, and `_time_to_minutes` maps any
malformed time string to 0, making the predicate total. -/
theorem C8_schedules_conflict_algebra :
    (∀ s1 s2 : Schedule, schedules_conflict s1 s2 = schedules_conflict s2 s1)
    ∧ (∀ s1 s2 : Schedule, s1.day_of_week ≠ s2.day_of_week →
        schedules_conflict s1 s2 = false)
    ∧ (∀ s1 s2 : Schedule,
        time_to_minutes s1.end_time = time_to_minutes s2.start_time ∨
          time_to_minutes s2.end_time = time_to_minutes s1.start_time →
        schedules_conflict s1 s2 = false)
    ∧ (∀ s : String, timeParse? s = none → time_to_minutes s = 0) := by
  refine ⟨?_, ?_, ?_, ?_⟩
  · intro s1 s2
    unfold schedules_conflict
    by_cases h : s1.day_of_week = s2.day_of_week
    · rw [if_neg (by simp [h]), if_neg (by simp [h]), Bool.or_comm]
    · rw [if_pos h, if_pos (Ne.symm h)]
  · intro s1 s2 h
    simp [schedules_conflict, h]
  · intro s1 s2 h
    unfold schedules_conflict
    by_cases hd : s1.day_of_week = s2.day_of_week
    · rw [if_neg (by simp [hd])]
      rcases h with h | h <;> simp [h]
    · rw [if_pos hd]
  · intro s h
    simp [time_to_minutes, h]

/-- Witness for C8 at concrete schedules: Monday 08:00–09:00 versus
Monday 09:00–10:00 merely touch, hence no conflict, and a malformed time
string maps to 0. -/
theorem C8_witness :
    schedules_conflict ⟨1, "08:00", "09:00", "", ""⟩ ⟨1, "09:00", "10:00", "", ""⟩ = false
    ∧ time_to_minutes "oops" = 0 := by
  constructor
  · exact C8_schedules_conflict_algebra.2.2.1 _ _ (Or.inl (by decide))
  · exact C8_schedules_conflict_algebra.2.2.2 "oops" (by decide)

/-- C9: `check_time_conflicts` yields one `time_overlap` record per conflicting
(new, existing) pair: its length is the number of conflicting pairs, each
record is a conflicting pair tagged `time_overlap`, every conflicting pair is
recorded, and the result is empty iff no new schedule conflicts with any
existing schedule. -/
theorem C9_check_time_conflicts_pairs :
    (∀ news olds : List Schedule,
      (check_time_conflicts news olds).length =
        (news.map (fun n => olds.countP (fun o => schedules_conflict n o))).sum)
    ∧ (∀ news olds : List Schedule, ∀ c ∈ check_time_conflicts news olds,
        c.conflict_type = "time_overlap" ∧ c.new_course ∈ news ∧
          c.existing_course ∈ olds ∧
          schedules_conflict c.new_course c.existing_course = true)
    ∧ (∀ (news olds : List Schedule) (n o : Schedule), n ∈ news → o ∈ olds →
        schedules_conflict n o = true →
        (⟨n, o, "time_overlap"⟩ : ConflictRec) ∈ check_time_conflicts news olds)
    ∧ (∀ news olds : List Schedule,
        check_time_conflicts news olds = [] ↔
          ∀ n ∈ news, ∀ o ∈ olds, schedules_conflict n o = false) := by
  refine ⟨check_time_conflicts_length, ?_, ?_, ?_⟩
  · intro news olds c hc
    have h := (check_time_conflicts_mem news olds c).mp hc
    exact ⟨h.2.2.2, h.1, h.2.1, h.2.2.1⟩
  · intro news olds n o hn ho hc
    exact (check_time_conflicts_mem news olds _).mpr ⟨hn, ho, hc, rfl⟩
  · intro news olds
    rw [List.eq_nil_iff_forall_not_mem]
    constructor
    · intro h n hn o ho
      by_contra hc
      exact h _ ((check_time_conflicts_mem news olds ⟨n, o, "time_overlap"⟩).mpr
        ⟨hn, ho, Bool.of_not_eq_false hc, rfl⟩)
    · intro h c hc
      have hm := (check_time_conflicts_mem news olds c).mp hc
      have := h _ hm.1 _ hm.2.1
      have h3 := hm.2.2.1
      simp_all

/-- Witness for C9 at concrete schedules: exactly one of the two candidate
pairs overlaps, so exactly one `time_overlap` record is produced and the
conflicting pair is recorded. -/
theorem C9_witness :
    (⟨⟨1, "08:00", "10:00", "", ""⟩, ⟨1, "09:00", "11:00", "A", "T"⟩, "time_overlap"⟩ :
        ConflictRec) ∈
      check_time_conflicts [⟨1, "08:00", "10:00", "", ""⟩]
        [⟨1, "09:00", "11:00", "A", "T"⟩, ⟨2, "09:00", "11:00", "B", "U"⟩]
    ∧ (check_time_conflicts [⟨1, "08:00", "10:00", "", ""⟩]
        [⟨1, "09:00", "11:00", "A", "T"⟩, ⟨2, "09:00", "11:00", "B", "U"⟩]).length = 1 := by
  constructor
  · exact C9_check_time_conflicts_pairs.2.2.1 _ _ _ _
      (List.mem_singleton.mpr rfl) (List.mem_cons_self _ _) (by decide)
  · rw [C9_check_time_conflicts_pairs.1]
    decide

/-! ## DataManagerAgent: `save_courses` (`data_manager_agent.py`)

The `courses` table is modelled as a map from the primary key `id` to its row;
`INSERT OR REPLACE` is `upsert`.  `CURRENT_TIMESTAMP` is an explicit input
`t`.  A course dict's mandatory keys `id` and `name` are `Option`-valued
(`none` models the `KeyError` of `course['id']`); the keys read through
`.get(..., default)` are plain fields with the default folded in. -/

/-- The payload serialized into the `details` column by `json.dumps`. -/
structure Details where
  code : String
  credits : String
  category1 : String
  category2 : String
  grade : String
  href : String
  is_retake : Bool
  link_text : String
deriving DecidableEq

/-- One course dict from `fetch_courses`' parsed output. -/
structure CourseDict where
  id : Option String
  name : Option String
  ctype : String
  code : String
  credits : String
  category1 : String
  category2 : String
  grade : String
  href : String
  is_retake : Bool
  link_text : String
  url : String
deriving DecidableEq

/-- A row of the `courses` table (`created_at`/`updated_at` collapse to the
single `CURRENT_TIMESTAMP` value `ts` that `INSERT OR REPLACE` writes). -/
structure CourseRow where
  name : String
  ctype : String
  details : Details
  url : String
  ts : Nat
deriving DecidableEq

/-- The `courses` table, keyed by primary key `id`. -/
def CoursesTable := String → Option CourseRow

/-- `INSERT OR REPLACE INTO courses` for one row. -/
def upsert (tbl : CoursesTable) (k : String) (r : CourseRow) : CoursesTable :=
  fun k2 => if k2 = k then some r else tbl k2

/-- The row written for one course dict, `none` when `course['id']` or
`course['name']` raises `KeyError`. -/
def writeOfCourse? (t : Nat) (c : CourseDict) : Option (String × CourseRow) :=
  match c.id, c.name with
  | some i, some n =>
    some (i, ⟨n, c.ctype,
      ⟨c.code, c.credits, c.category1, c.category2, c.grade, c.href,
        c.is_retake, c.link_text⟩, c.url, t⟩)
  | _, _ => none

/-- Inner loop of `save_courses` over one category's course list. -/
def saveCoursesList (t : Nat) : CoursesTable → Nat → List CourseDict →
    Option (CoursesTable × Nat)
  | tbl, acc, [] => some (tbl, acc)
  | tbl, acc, c :: rest =>
    match writeOfCourse? t c with
    | some (i, r) => saveCoursesList t (upsert tbl i r) (acc + 1) rest
    | none => none

/-- Outer loop of `save_courses` over `courses_data.items()`, skipping the
aggregate key `'all'`. -/
def saveCategories (t : Nat) : CoursesTable → Nat → List (String × List CourseDict) →
    Option (CoursesTable × Nat)
  | tbl, acc, [] => some (tbl, acc)
  | tbl, acc, (cat, cs) :: rest =>
    if cat = "all" then saveCategories t tbl acc rest
    else
      match saveCoursesList t tbl acc cs with
      | some (tbl2, acc2) => saveCategories t tbl2 acc2 rest
      | none => none

/-- `DataManagerAgent.save_courses`: result table and returned count; the
`except` clause returns 0 (the partial uncommitted writes are dropped). -/
def save_courses (t : Nat) (tbl : CoursesTable) (data : List (String × List CourseDict)) :
    CoursesTable × Nat :=
  match saveCategories t tbl 0 data with
  | some (tbl2, n) => (tbl2, n)
  | none => (tbl, 0)

/-- The sequence of `(id, row)` writes `save_courses` performs on one list. -/
def writesOfList (t : Nat) : List CourseDict → Option (List (String × CourseRow))
  | [] => some []
  | c :: rest =>
    match writeOfCourse? t c, writesOfList t rest with
    | some w, some ws => some (w :: ws)
    | _, _ => none

/-- The sequence of writes over all non-`'all'` categories. -/
def writesOfData (t : Nat) : List (String × List CourseDict) →
    Option (List (String × CourseRow))
  | [] => some []
  | (cat, cs) :: rest =>
    if cat = "all" then writesOfData t rest
    else
      match writesOfList t cs, writesOfData t rest with
      | some ws, some ws2 => some (ws ++ ws2)
      | _, _ => none

/-- Replay a sequence of upserts on a table. -/
def applyWrites (tbl : CoursesTable) : List (String × CourseRow) → CoursesTable
  | [] => tbl
  | (k, r) :: rest => applyWrites (upsert tbl k r) rest

/-- The last write a sequence performs on a given key, if any. -/
def lastWrite : List (String × CourseRow) → String → Option CourseRow
  | [], _ => none
  | (i, r) :: rest, k =>
    match lastWrite rest k with
    | some r2 => some r2
    | none => if i = k then some r else none

theorem applyWrites_append (tbl : CoursesTable) (ws1 ws2 : List (String × CourseRow)) :
    applyWrites tbl (ws1 ++ ws2) = applyWrites (applyWrites tbl ws1) ws2 := by
  induction ws1 generalizing tbl with
  | nil => rfl
  | cons w rest ih => cases w; simp [applyWrites, ih]

theorem applyWrites_eval (tbl : CoursesTable) (ws : List (String × CourseRow)) (k : String) :
    applyWrites tbl ws k =
      match lastWrite ws k with
      | some r => some r
      | none => tbl k := by
  induction ws generalizing tbl with
  | nil => rfl
  | cons w rest ih =>
    cases w with
    | mk i r =>
      rw [applyWrites, ih, lastWrite]
      cases lastWrite rest k with
      | some r2 => rfl
      | none =>
        by_cases h : i = k
        · simp [upsert, h]
        · simp [upsert, h, show ¬k = i from fun hk => h hk.symm]

theorem applyWrites_idem (tbl : CoursesTable) (ws : List (String × CourseRow)) :
    applyWrites (applyWrites tbl ws) ws = applyWrites tbl ws := by
  funext k
  rw [applyWrites_eval, applyWrites_eval]
  cases lastWrite ws k <;> rfl

theorem saveCoursesList_eq_writes (t : Nat) (cs : List CourseDict)
    (tbl : CoursesTable) (acc : Nat) :
    saveCoursesList t tbl acc cs =
      (writesOfList t cs).map (fun ws => (applyWrites tbl ws, acc + ws.length)) := by
  induction cs generalizing tbl acc with
  | nil => simp [saveCoursesList, writesOfList, applyWrites]
  | cons c rest ih =>
    rcases hw : writeOfCourse? t c with _ | ⟨i, r⟩ <;>
      rcases hws : writesOfList t rest with _ | ws <;>
      rw [saveCoursesList, writesOfList, hw, hws]
    · rfl
    · rfl
    · show saveCoursesList t (upsert tbl i r) (acc + 1) rest =
        Option.map (fun ws => (applyWrites tbl ws, acc + ws.length)) none
      rw [ih, hws]
      rfl
    · show saveCoursesList t (upsert tbl i r) (acc + 1) rest =
        some (applyWrites tbl ((i, r) :: ws), acc + ((i, r) :: ws).length)
      rw [ih, hws]
      show some (applyWrites (upsert tbl i r) ws, acc + 1 + ws.length) = _
      have harith : acc + 1 + ws.length = acc + (ws.length + 1) := by omega
      rw [harith]
      rfl

theorem saveCategories_eq_writes (t : Nat) (data : List (String × List CourseDict))
    (tbl : CoursesTable) (acc : Nat) :
    saveCategories t tbl acc data =
      (writesOfData t data).map (fun ws => (applyWrites tbl ws, acc + ws.length)) := by
  induction data generalizing tbl acc with
  | nil => simp [saveCategories, writesOfData, applyWrites]
  | cons p rest ih =>
    cases p with
    | mk cat cs =>
      by_cases h : cat = "all"
      · rw [saveCategories, writesOfData, if_pos h, if_pos h, ih]
      · rcases hws : writesOfList t cs with _ | ws <;>
          rcases hws2 : writesOfData t rest with _ | ws2 <;>
          rw [saveCategories, writesOfData, if_neg h, if_neg h,
            saveCoursesList_eq_writes, hws, hws2]
        · rfl
        · rfl
        · show saveCategories t (applyWrites tbl ws) (acc + ws.length) rest =
            Option.map (fun ws => (applyWrites tbl ws, acc + ws.length)) none
          rw [ih, hws2]
          rfl
        · show saveCategories t (applyWrites tbl ws) (acc + ws.length) rest =
            some (applyWrites tbl (ws ++ ws2), acc + (ws ++ ws2).length)
          rw [ih, hws2]
          show some (applyWrites (applyWrites tbl ws) ws2, acc + ws.length + ws2.length) = _
          rw [← applyWrites_append]
          have harith : acc + ws.length + ws2.length = acc + (ws ++ ws2).length := by
            rw [List.length_append]
            omega
          rw [harith]

theorem save_courses_some (t : Nat) (tbl : CoursesTable)
    (data : List (String × List CourseDict)) (ws : List (String × CourseRow))
    (hws : writesOfData t data = some ws) :
    save_courses t tbl data = (applyWrites tbl ws, ws.length) := by
  rw [save_courses, saveCategories_eq_writes, hws]
  simp

theorem save_courses_none (t : Nat) (tbl : CoursesTable)
    (data : List (String × List CourseDict)) (hws : writesOfData t data = none) :
    save_courses t tbl data = (tbl, 0) := by
  rw [save_courses, saveCategories_eq_writes, hws]
  rfl

theorem writesOfList_ok (t : Nat) (cs : List CourseDict)
    (h : ∀ c ∈ cs, c.id ≠ none ∧ c.name ≠ none) :
    ∃ ws, writesOfList t cs = some ws ∧ ws.length = cs.length := by
  induction cs with
  | nil => exact ⟨[], rfl, rfl⟩
  | cons c rest ih =>
    obtain ⟨hid, hname⟩ := h c (List.mem_cons_self c rest)
    obtain ⟨ws, hws, hlen⟩ := ih (fun c hc => h c (List.mem_cons_of_mem _ hc))
    rcases hi : c.id with _ | i
    · exact absurd hi hid
    rcases hn : c.name with _ | n
    · exact absurd hn hname
    refine ⟨(i, ⟨n, c.ctype, ⟨c.code, c.credits, c.category1, c.category2, c.grade,
        c.href, c.is_retake, c.link_text⟩, c.url, t⟩) :: ws, ?_, ?_⟩
    · rw [writesOfList]
      simp only [writeOfCourse?, hi, hn, hws]
    · simp [hlen]

theorem writesOfList_err (t : Nat) (cs : List CourseDict) (c : CourseDict)
    (hc : c ∈ cs) (h : c.id = none ∨ c.name = none) :
    writesOfList t cs = none := by
  induction cs with
  | nil => cases hc
  | cons c0 rest ih =>
    rcases List.mem_cons.mp hc with rfl | hc
    · have hw : writeOfCourse? t c = none := by
        rw [writeOfCourse?]
        rcases h with h | h
        · rw [h]
        · rw [h]
          cases c.id <;> rfl
      rw [writesOfList, hw]

    · rw [writesOfList, ih hc]
      cases writeOfCourse? t c0 <;> rfl

theorem writesOfData_ok (t : Nat) (data : List (String × List CourseDict))
    (h : ∀ cat cs, (cat, cs) ∈ data → cat ≠ "all" →
      ∀ c ∈ cs, c.id ≠ none ∧ c.name ≠ none) :
    ∃ ws, writesOfData t data = some ws ∧
      ws.length = ((data.filter (fun p => p.1 ≠ "all")).map (fun p => p.2.length)).sum := by
  induction data with
  | nil => exact ⟨[], rfl, rfl⟩
  | cons p rest ih =>
    obtain ⟨ws, hws, hlen⟩ := ih (fun cat cs hm => h cat cs (List.mem_cons_of_mem _ hm))
    cases p with
    | mk cat cs =>
      by_cases hcat : cat = "all"
      · refine ⟨ws, ?_, ?_⟩
        · rw [writesOfData, if_pos hcat, hws]
        · rw [hlen]
          congr 1
          simp [hcat]
      · obtain ⟨ws1, hws1, hlen1⟩ :=
          writesOfList_ok t cs (h cat cs (List.mem_cons_self _ _) hcat)
        refine ⟨ws1 ++ ws, ?_, ?_⟩
        · rw [writesOfData, if_neg hcat]
          simp only [hws1, hws]
        · simp [hcat, hlen, hlen1]

theorem writesOfData_err (t : Nat) (data : List (String × List CourseDict))
    (cat : String) (cs : List CourseDict) (c : CourseDict)
    (hm : (cat, cs) ∈ data) (hcat : cat ≠ "all") (hc : c ∈ cs)
    (h : c.id = none ∨ c.name = none) :
    writesOfData t data = none := by
  induction data with
  | nil => cases hm
  | cons p rest ih =>
    cases p with
    | mk cat0 cs0 =>
      rcases List.mem_cons.mp hm with heq | hm2
      · injection heq with heq1 heq2
        subst heq1
        subst heq2
        rw [writesOfData, if_neg hcat, writesOfList_err t cs c hc h]

      · rw [writesOfData]
        by_cases h0 : cat0 = "all"
        · rw [if_pos h0, ih hm2]
        · rw [if_neg h0, ih hm2]
          cases writesOfList t cs0 <;> rfl

/-- C10: `save_courses` skips the aggregate `'all'` list, is idempotent on the
`courses` table (`INSERT OR REPLACE` keyed by `id`; the `CURRENT_TIMESTAMP`
input `t` is fixed across the two saves), returns the number of course entries
written, and returns 0 when a course dict lacks its `id` or `name` key. -/
theorem C10_save_courses_upsert :
    (∀ (t : Nat) (tbl : CoursesTable) (cs : List CourseDict)
        (rest : List (String × List CourseDict)),
      save_courses t tbl (("all", cs) :: rest) = save_courses t tbl rest)
    ∧ (∀ (t : Nat) (tbl : CoursesTable) (data : List (String × List CourseDict)),
        save_courses t (save_courses t tbl data).1 data = save_courses t tbl data)
    ∧ (∀ (t : Nat) (tbl : CoursesTable) (data : List (String × List CourseDict)),
        (∀ cat cs, (cat, cs) ∈ data → cat ≠ "all" →
          ∀ c ∈ cs, c.id ≠ none ∧ c.name ≠ none) →
        (save_courses t tbl data).2 =
          ((data.filter (fun p => p.1 ≠ "all")).map (fun p => p.2.length)).sum)
    ∧ (∀ (t : Nat) (tbl : CoursesTable) (data : List (String × List CourseDict))
        (cat : String) (cs : List CourseDict) (c : CourseDict),
        (cat, cs) ∈ data → cat ≠ "all" → c ∈ cs → c.id = none ∨ c.name = none →
        (save_courses t tbl data).2 = 0) := by
  refine ⟨?_, ?_, ?_, ?_⟩
  · intro t tbl cs rest
    rw [save_courses, save_courses, saveCategories, if_pos rfl]
  · intro t tbl data
    rcases hws : writesOfData t data with _ | ws
    · rw [save_courses_none t tbl data hws]
      show save_courses t tbl data = (tbl, 0)
      exact save_courses_none t tbl data hws
    · rw [save_courses_some t tbl data ws hws]
      show save_courses t (applyWrites tbl ws) data = (applyWrites tbl ws, ws.length)
      rw [save_courses_some t _ data ws hws, applyWrites_idem]
  · intro t tbl data h
    obtain ⟨ws, hws, hlen⟩ := writesOfData_ok t data h
    rw [save_courses_some t tbl data ws hws]
    exact hlen
  · intro t tbl data cat cs c hm hcat hc h
    rw [save_courses_none t tbl data (writesOfData_err t data cat cs c hm hcat hc h)]

/-- Witness for C10 at a concrete dataset: a course listed under `regular` and
under `all` is written once; re-saving leaves the table unchanged; a dataset
whose course lacks `id` returns 0. -/
theorem C10_witness :
    (save_courses 5 (fun _ => none)
        [("regular", [⟨some "K1", some "N", "必修", "", "", "", "", "", "", false, "", ""⟩]),
         ("all", [⟨some "K1", some "N", "必修", "", "", "", "", "", "", false, "", ""⟩])]).2 = 1
    ∧ (save_courses 5 (fun _ => none)
        [("regular", [⟨none, some "N", "", "", "", "", "", "", "", false, "", ""⟩])]).2 = 0 := by
  constructor
  · rw [C10_save_courses_upsert.2.2.1]
    · decide
    · intro cat cs hm hcat c hc
      simp only [List.mem_cons, Prod.mk.injEq, List.not_mem_nil, or_false] at hm
      rcases hm with ⟨rfl, rfl⟩ | ⟨rfl, rfl⟩
      · simp only [List.mem_singleton] at hc
        subst hc
        exact ⟨by simp, by simp⟩
      · exact absurd rfl hcat
  · exact C10_save_courses_upsert.2.2.2 5 (fun _ => none) _ "regular" _
      ⟨none, some "N", "", "", "", "", "", "", "", false, "", ""⟩
      (List.mem_singleton.mpr rfl) (by decide) (List.mem_singleton.mpr rfl)
      (Or.inl rfl)

/-! ## BrowserAgent: `check_course_availability` (`browser_agent.py`)

The inner `_check` coroutine fetches the availability URL and parses the page
body; only the parsing/aggregation is pure and is embedded here.  The parsed
body is an input: `notJson` models a `json.JSONDecodeError` from `json.loads`,
`jsonNoAaData` a JSON value without a usable `'aaData'` key, and `jsonAaData`
the `'aaData'` list, with each entry's `syrs` already converted by
`int(class_data.get('syrs', '0'))`. -/

/-- One `'aaData'` entry, with the fields `_check` reads. -/
structure ClassData where
  jx0404id : String
  syrs : Int
  teacher : String
  time : String
  location : String
deriving DecidableEq

/-- The parse status of the availability page body. -/
inductive PageBody where
  | notJson
  | jsonNoAaData
  | jsonAaData (aa : List ClassData)
deriving DecidableEq

/-- One element of the result's `'classes'` list. -/
structure ClassInfo where
  jx0404id : String
  remaining : Int
  teacher : String
  time : String
  location : String
  available : Bool
deriving DecidableEq

/-- The dict returned by `check_course_availability`. -/
structure AvailResult where
  available : Bool
  total_remaining : Int
  classes : List ClassInfo
  best_class : Option ClassInfo
deriving DecidableEq

/-- The `'classes'` entry built for one `'aaData'` row. -/
def toClassInfo (c : ClassData) : ClassInfo :=
  ⟨c.jx0404id, c.syrs, c.teacher, c.time, c.location, decide (0 < c.syrs)⟩

/-- The `total_available` accumulator: `if remaining > 0: total_available += remaining`. -/
def totalAvailable (aa : List ClassData) : Int :=
  aa.foldl (fun acc c => if 0 < c.syrs then acc + c.syrs else acc) 0

/-- Python's `max(classes, key=lambda x: x['remaining'])`: the first element
attaining the maximum (later elements replace only on strictly greater key). -/
def maxByRemaining : List ClassInfo → Option ClassInfo
  | [] => none
  | c :: rest => some (rest.foldl (fun best x =>
      if best.remaining < x.remaining then x else best) c)

/-- `BrowserAgent.check_course_availability` (the parsing part of `_check`):
the final `return` supplies the default dict when the body is not JSON, has no
`'aaData'`, or has an empty `'aaData'` list. -/
def check_course_availability (body : PageBody) : AvailResult :=
  match body with
  | .jsonAaData aa =>
    if 0 < aa.length then
      let classes := aa.map toClassInfo
      let total := totalAvailable aa
      ⟨decide (0 < total), total, classes, maxByRemaining classes⟩
    else ⟨false, 0, [], none⟩
  | _ => ⟨false, 0, [], none⟩

theorem totalAvailable_go (aa : List ClassData) (acc : Int) :
    aa.foldl (fun acc c => if 0 < c.syrs then acc + c.syrs else acc) acc =
      acc + ((aa.map (fun c => c.syrs)).filter (fun v => decide (0 < v))).sum := by
  induction aa generalizing acc with
  | nil => simp
  | cons c rest ih =>
    by_cases h : 0 < c.syrs
    · rw [List.foldl_cons, if_pos h, ih, List.map_cons,
        List.filter_cons_of_pos (by simpa using h), List.sum_cons]
      ring
    · rw [List.foldl_cons, if_neg h, ih, List.map_cons,
        List.filter_cons_of_neg (by simpa using h)]

theorem totalAvailable_sum (aa : List ClassData) :
    totalAvailable aa =
      ((aa.map (fun c => c.syrs)).filter (fun v => decide (0 < v))).sum := by
  rw [totalAvailable, totalAvailable_go]
  simp

theorem maxFold_mem (rest : List ClassInfo) (c : ClassInfo) :
    rest.foldl (fun best x => if best.remaining < x.remaining then x else best) c = c
    ∨ rest.foldl (fun best x => if best.remaining < x.remaining then x else best) c
        ∈ rest := by
  induction rest generalizing c with
  | nil => exact Or.inl rfl
  | cons y rest ih =>
    rw [List.foldl_cons]
    by_cases h : c.remaining < y.remaining
    · rw [if_pos h]
      rcases ih y with h1 | h1
      · exact Or.inr (by rw [h1]; exact List.mem_cons_self _ _)
      · exact Or.inr (List.mem_cons_of_mem _ h1)
    · rw [if_neg h]
      rcases ih c with h1 | h1
      · exact Or.inl h1
      · exact Or.inr (List.mem_cons_of_mem _ h1)

theorem maxFold_ge (rest : List ClassInfo) (c : ClassInfo) :
    c.remaining ≤ (rest.foldl
        (fun best x => if best.remaining < x.remaining then x else best) c).remaining
    ∧ ∀ x ∈ rest, x.remaining ≤ (rest.foldl
        (fun best x => if best.remaining < x.remaining then x else best) c).remaining := by
  induction rest generalizing c with
  | nil => exact ⟨le_refl _, by simp⟩
  | cons y rest ih =>
    rw [List.foldl_cons]
    by_cases h : c.remaining < y.remaining
    · rw [if_pos h]
      refine ⟨le_trans (le_of_lt h) (ih y).1, ?_⟩
      intro x hx
      rcases List.mem_cons.mp hx with h1 | h1
      · exact h1 ▸ (ih y).1
      · exact (ih y).2 x h1
    · rw [if_neg h]
      refine ⟨(ih c).1, ?_⟩
      intro x hx
      rcases List.mem_cons.mp hx with h1 | h1
      · exact h1 ▸ le_trans (le_of_not_lt h) (ih c).1
      · exact (ih c).2 x h1

theorem maxByRemaining_spec (l : List ClassInfo) (hne : l ≠ []) :
    ∃ b, maxByRemaining l = some b ∧ b ∈ l ∧ ∀ x ∈ l, x.remaining ≤ b.remaining := by
  cases l with
  | nil => exact absurd rfl hne
  | cons c rest =>
    refine ⟨_, rfl, ?_, ?_⟩
    · rcases maxFold_mem rest c with h1 | h1
      · rw [h1]
        exact List.mem_cons_self _ _
      · exact List.mem_cons_of_mem _ h1
    · intro x hx
      rcases List.mem_cons.mp hx with h1 | h1
      · exact h1 ▸ (maxFold_ge rest c).1
      · exact (maxFold_ge rest c).2 x h1

/-- C6: on a body that parses as JSON with a non-empty `'aaData'` list, the
result's `total_remaining` is the sum of the positive `syrs` values,
`available` holds iff that sum is positive, `classes` mirrors the entries, and
`best_class` is a listed class with maximal remaining slots; any other body
yields the default dict without raising. -/
theorem C6_check_course_availability :
    (∀ aa : List ClassData, aa ≠ [] →
      (check_course_availability (.jsonAaData aa)).total_remaining =
          ((aa.map (fun c => c.syrs)).filter (fun v => decide (0 < v))).sum
      ∧ ((check_course_availability (.jsonAaData aa)).available = true ↔
          0 < (check_course_availability (.jsonAaData aa)).total_remaining)
      ∧ (check_course_availability (.jsonAaData aa)).classes = aa.map toClassInfo
      ∧ ∃ b, (check_course_availability (.jsonAaData aa)).best_class = some b ∧
          b ∈ aa.map toClassInfo ∧
          ∀ x ∈ aa.map toClassInfo, x.remaining ≤ b.remaining)
    ∧ check_course_availability .notJson = ⟨false, 0, [], none⟩
    ∧ check_course_availability .jsonNoAaData = ⟨false, 0, [], none⟩
    ∧ check_course_availability (.jsonAaData []) = ⟨false, 0, [], none⟩ := by
  refine ⟨?_, rfl, rfl, rfl⟩
  intro aa hne
  have hlen : 0 < aa.length := List.length_pos.mpr hne
  have hmap : aa.map toClassInfo ≠ [] := by
    simp [List.map_eq_nil_iff, hne]
  rw [check_course_availability]
  rw [if_pos hlen]
  refine ⟨totalAvailable_sum aa, by simp [decide_eq_true_eq], rfl, ?_⟩
  obtain ⟨b, hb, hmem, hmax⟩ := maxByRemaining_spec (aa.map toClassInfo) hmap
  exact ⟨b, hb, hmem, hmax⟩

/-- Witness for C6 at a concrete page body: two classes with 3 and -1
remaining give total 3, availability, and the first class as best. -/
theorem C6_witness :
    (check_course_availability (.jsonAaData
        [⟨"J1", 3, "T1", "", ""⟩, ⟨"J2", -1, "T2", "", ""⟩])).total_remaining = 3
    ∧ (check_course_availability (.jsonAaData
        [⟨"J1", 3, "T1", "", ""⟩, ⟨"J2", -1, "T2", "", ""⟩])).available = true := by
  have h := C6_check_course_availability.1
      [⟨"J1", 3, "T1", "", ""⟩, ⟨"J2", -1, "T2", "", ""⟩] (by decide)
  refine ⟨?_, ?_⟩
  · rw [h.1]
    decide
  · rw [h.2.1, h.1]
    decide

/-! ## DataManagerAgent: storage layer (`data_manager_agent.py`)

`_create_tables` issues four `CREATE TABLE IF NOT EXISTS` statements; each is
embedded as its table name with its column list.  The pandas query helpers are
embedded with the `pd.read_sql_query` call as an input (`Except` encoding an
exception), returning `pd.DataFrame()` (the empty frame) on failure. -/

/-- A table created by `_create_tables`. -/
structure TableSchema where
  name : String
  columns : List String
deriving DecidableEq

/-- The `courses` table. -/
def coursesTable : TableSchema :=
  ⟨"courses", ["id", "name", "type", "details", "url", "created_at", "updated_at"]⟩

/-- The `course_schedules` table. -/
def courseSchedulesTable : TableSchema :=
  ⟨"course_schedules", ["id", "course_id", "day_of_week", "start_time",
    "end_time", "location", "teacher", "weeks"]⟩

/-- The `enrollment_records` table. -/
def enrollmentRecordsTable : TableSchema :=
  ⟨"enrollment_records", ["id", "course_id", "jx0404id", "action", "status",
    "message", "timestamp"]⟩

/-- The `course_availability` table. -/
def courseAvailabilityTable : TableSchema :=
  ⟨"course_availability", ["id", "course_id", "remaining_slots", "total_slots",
    "jx0404id", "checked_at"]⟩

/-- `DataManagerAgent._create_tables`: the four CREATE statements in order. -/
def create_tables : List TableSchema :=
  [coursesTable, courseSchedulesTable, enrollmentRecordsTable, courseAvailabilityTable]

/-- A pandas DataFrame, as its list of rows. -/
abbrev DataFrame := List (List String)

/-- The empty `pd.DataFrame()`. -/
def emptyDF : DataFrame := []

/-- Shared shape of the pandas helpers: the queried frame, or `pd.DataFrame()`
when `pd.read_sql_query` raised. -/
def dfOrEmpty : Except String DataFrame → DataFrame
  | .ok df => df
  | .error _ => emptyDF

/-- The `course_type` → stored `type` mapping of `get_available_courses`. -/
def type_mapping : List (String × String) :=
  [("professional", "必修"), ("public", "选修"), ("regular", "必修"), ("retake", "重修")]

/-- `DataManagerAgent.get_available_courses`: builds the SQL query and params,
runs `pd.read_sql_query` (the input `runQuery`), and returns the empty frame
when the query raises. -/
def get_available_courses (course_type : Option String)
    (runQuery : String → List String → Except String DataFrame) : DataFrame :=
  let base := "SELECT * FROM courses"
  let qp : String × List String :=
    match course_type with
    | some ct =>
      match type_mapping.lookup ct with
      | some v => (base ++ " WHERE type = ?", [v])
      | none => (base, [])
    | none => (base, [])
  dfOrEmpty (runQuery (qp.1 ++ " ORDER BY type, name") qp.2)

/-- `DataManagerAgent.get_course_availability_history` (query whitespace
normalized to single spaces). -/
def get_course_availability_history (course_id : String) (days : Int)
    (runQuery : String → List String → Except String DataFrame) : DataFrame :=
  let query := "SELECT * FROM course_availability WHERE course_id = ? AND " ++
    "checked_at >= datetime(\x27now\x27, \x27-" ++ toString days ++
    " days\x27) ORDER BY checked_at DESC"
  dfOrEmpty (runQuery query [course_id])

/-- `DataManagerAgent.get_enrollment_history` (query whitespace normalized). -/
def get_enrollment_history (days : Int)
    (runQuery : String → Except String DataFrame) : DataFrame :=
  let query := "SELECT er.*, c.name as course_name, c.type as course_type " ++
    "FROM enrollment_records er LEFT JOIN courses c ON er.course_id = c.id " ++
    "WHERE er.timestamp >= datetime(\x27now\x27, \x27-" ++ toString days ++
    " days\x27) ORDER BY er.timestamp DESC"
  dfOrEmpty (runQuery query)

/-- C7: the storage layer creates exactly the four tables `courses`,
`course_schedules`, `enrollment_records`, `course_availability`, and the three
query helpers return the DataFrame produced by the underlying query, or the
empty DataFrame instead of raising when the query fails. -/
theorem C7_storage_tables_and_queries :
    (create_tables.map (fun s => s.name) =
        ["courses", "course_schedules", "enrollment_records", "course_availability"]
      ∧ create_tables.length = 4)
    ∧ (∀ (ct : Option String) (q : String → List String → Except String DataFrame)
        (df : DataFrame),
        (∀ s ps, q s ps = .ok df) → get_available_courses ct q = df)
    ∧ (∀ (ct : Option String) (q : String → List String → Except String DataFrame)
        (e : String),
        (∀ s ps, q s ps = .error e) → get_available_courses ct q = emptyDF)
    ∧ (∀ (cid : String) (days : Int) (q : String → List String → Except String DataFrame)
        (df : DataFrame),
        (∀ s ps, q s ps = .ok df) → get_course_availability_history cid days q = df)
    ∧ (∀ (cid : String) (days : Int) (q : String → List String → Except String DataFrame)
        (e : String),
        (∀ s ps, q s ps = .error e) → get_course_availability_history cid days q = emptyDF)
    ∧ (∀ (days : Int) (q : String → Except String DataFrame) (df : DataFrame),
        (∀ s, q s = .ok df) → get_enrollment_history days q = df)
    ∧ (∀ (days : Int) (q : String → Except String DataFrame) (e : String),
        (∀ s, q s = .error e) → get_enrollment_history days q = emptyDF) := by
  refine ⟨⟨rfl, rfl⟩, ?_, ?_, ?_, ?_, ?_, ?_⟩
  · intro ct q df h
    simp only [get_available_courses, h, dfOrEmpty]
  · intro ct q e h
    simp only [get_available_courses, h, dfOrEmpty]
  · intro cid days q df h
    simp only [get_course_availability_history, h, dfOrEmpty]
  · intro cid days q e h
    simp only [get_course_availability_history, h, dfOrEmpty]
  · intro days q df h
    simp only [get_enrollment_history, h, dfOrEmpty]
  · intro days q e h
    simp only [get_enrollment_history, h, dfOrEmpty]

/-- Witness for C7: a failing query oracle yields the empty DataFrame and a
succeeding one yields its rows. -/
theorem C7_witness :
    get_available_courses none (fun _ _ => .error "db closed") = emptyDF
    ∧ get_available_courses (some "retake") (fun _ _ => .ok [["r1"]]) = [["r1"]] := by
  constructor
  · exact C7_storage_tables_and_queries.2.2.1 none _ "db closed" (fun _ _ => rfl)
  · exact C7_storage_tables_and_queries.2.1 (some "retake") _ [["r1"]] (fun _ _ => rfl)

/-! ## BrowserAgent: `_retry_on_auth_error` (`browser_agent.py`)

The wrapped coroutine is an input `f : Nat → CallOutcome` giving, per attempt
index, whether the call raised, or returned a value together with the result
of the subsequent `_check_auth_status()`. -/

/-- The observable behaviour of one attempt of the wrapped operation. -/
inductive CallOutcome where
  | throws
  | returns (v : Nat) (authOk : Bool)
deriving DecidableEq

/-- How the wrapper fails: re-raising the caught exception on the last
attempt, or the final `raise Exception("重试次数已用完，操作失败")`. -/
inductive RetryError where
  | reraised
  | exhausted
deriving DecidableEq

/-- The wrapper's result plus instrumentation: how many times the wrapped
operation was invoked and how many `_refresh_session()` calls happened. -/
structure RetryTrace where
  result : Except RetryError Nat
  calls : Nat
  refreshes : Nat

/-- `self.retry_count`, set in `BrowserAgent.__init__`. -/
def retry_count : Nat := 3

/-- The `for attempt in range(self.retry_count)` loop of
`_retry_on_auth_error`. -/
def retryGo (f : Nat → CallOutcome) (attempt calls refreshes : Nat) : RetryTrace :=
  if h : attempt < retry_count then
    match f attempt with
    | .throws =>
      if attempt = retry_count - 1 then ⟨.error .reraised, calls + 1, refreshes⟩
      else retryGo f (attempt + 1) (calls + 1) refreshes
    | .returns v true => ⟨.ok v, calls + 1, refreshes⟩
    | .returns _ false =>
      if attempt < retry_count - 1 then retryGo f (attempt + 1) (calls + 1) (refreshes + 1)
      else retryGo f (attempt + 1) (calls + 1) refreshes
  else ⟨.error .exhausted, calls, refreshes⟩
termination_by retry_count - attempt

/-- `BrowserAgent._retry_on_auth_error`. -/
def retry_on_auth_error (f : Nat → CallOutcome) : RetryTrace := retryGo f 0 0 0

/-- `BrowserAgent.fetch_courses`: its `_fetch` body runs through the wrapper. -/
def fetch_courses (fetchBody : Nat → CallOutcome) : RetryTrace :=
  retry_on_auth_error fetchBody

/-- The wrapper call of `BrowserAgent.check_course_availability` on its
`_check` body. -/
def check_course_availability_wrapped (checkBody : Nat → CallOutcome) : RetryTrace :=
  retry_on_auth_error checkBody

/-- The wrapper call of `BrowserAgent.select_course` on its `_select` body. -/
def select_course_wrapped (selectBody : Nat → CallOutcome) : RetryTrace :=
  retry_on_auth_error selectBody

theorem retryGo_calls (f : Nat → CallOutcome) (attempt calls refreshes : Nat) :
    (retryGo f attempt calls refreshes).calls ≤ calls + (retry_count - attempt) := by
  by_cases h : attempt < retry_count
  · rw [retryGo, dif_pos h]
    match f attempt with
    | .throws =>
      by_cases h2 : attempt = retry_count - 1
      · simp only [if_pos h2]
        show calls + 1 ≤ calls + (retry_count - attempt)
        omega
      · simp only [if_neg h2]
        have := retryGo_calls f (attempt + 1) (calls + 1) refreshes
        omega
    | .returns v true =>
      show calls + 1 ≤ calls + (retry_count - attempt)
      omega
    | .returns v false =>
      by_cases h2 : attempt < retry_count - 1
      · simp only [if_pos h2]
        have := retryGo_calls f (attempt + 1) (calls + 1) (refreshes + 1)
        omega
      · simp only [if_neg h2]
        have := retryGo_calls f (attempt + 1) (calls + 1) refreshes
        omega
  · rw [retryGo, dif_neg h]
    show calls ≤ calls + (retry_count - attempt)
    omega
termination_by retry_count - attempt

/-- C4: the retry wrapper invokes the wrapped operation at most
`retry_count = 3` times; when every attempt fails (raises, or returns with the
authentication check failing) it raises; when all three attempts return with
a failed auth check, the session is refreshed exactly between attempts (twice)
and the final `raise` fires; and `fetch_courses`,
`check_course_availability` and `select_course` all run through this wrapper,
so none of their bodies is attempted more than 3 times. -/
theorem C4_retry_bounded :
    retry_count = 3
    ∧ (∀ f, (retry_on_auth_error f).calls ≤ retry_count)
    ∧ (∀ f, (∀ i, i < retry_count → ∀ v, f i ≠ .returns v true) →
        ∃ e, (retry_on_auth_error f).result = .error e)
    ∧ (∀ f, (∀ i, i < retry_count → ∃ v, f i = .returns v false) →
        retry_on_auth_error f = ⟨.error .exhausted, 3, 2⟩)
    ∧ (∀ f, fetch_courses f = retry_on_auth_error f
        ∧ check_course_availability_wrapped f = retry_on_auth_error f
        ∧ select_course_wrapped f = retry_on_auth_error f
        ∧ (fetch_courses f).calls ≤ 3
        ∧ (check_course_availability_wrapped f).calls ≤ 3
        ∧ (select_course_wrapped f).calls ≤ 3) := by
  refine ⟨rfl, ?_, ?_, ?_, ?_⟩
  · intro f
    have := retryGo_calls f 0 0 0
    simpa [retry_on_auth_error] using this
  · intro f hfail
    have h0 := hfail 0 (by decide)
    have h1 := hfail 1 (by decide)
    have h2 := hfail 2 (by decide)
    rw [retry_on_auth_error, retryGo, dif_pos (by decide : (0 : Nat) < retry_count)]
    rcases hf0 : f 0 with _ | ⟨v0, a0⟩
    · simp only [if_neg (by decide : ¬(0 : Nat) = retry_count - 1)]
      rw [retryGo, dif_pos (by decide : (1 : Nat) < retry_count)]
      rcases hf1 : f 1 with _ | ⟨v1, a1⟩
      · simp only [if_neg (by decide : ¬(1 : Nat) = retry_count - 1)]
        rw [retryGo, dif_pos (by decide : (2 : Nat) < retry_count)]
        rcases hf2 : f 2 with _ | ⟨v2, a2⟩
        · exact ⟨.reraised, by simp [retry_count]⟩
        · cases a2 with
          | true => exact absurd hf2 (h2 v2)
          | false =>
            simp only [if_neg (by decide : ¬(2 : Nat) < retry_count - 1)]
            rw [retryGo, dif_neg (by decide : ¬(3 : Nat) < retry_count)]
            exact ⟨.exhausted, rfl⟩
      · cases a1 with
        | true => exact absurd hf1 (h1 v1)
        | false =>
          simp only [if_pos (by decide : (1 : Nat) < retry_count - 1)]
          rw [retryGo, dif_pos (by decide : (2 : Nat) < retry_count)]
          rcases hf2 : f 2 with _ | ⟨v2, a2⟩
          · exact ⟨.reraised, by simp [retry_count]⟩
          · cases a2 with
            | true => exact absurd hf2 (h2 v2)
            | false =>
              simp only [if_neg (by decide : ¬(2 : Nat) < retry_count - 1)]
              rw [retryGo, dif_neg (by decide : ¬(3 : Nat) < retry_count)]
              exact ⟨.exhausted, rfl⟩
    · cases a0 with
      | true => exact absurd hf0 (h0 v0)
      | false =>
        simp only [if_pos (by decide : (0 : Nat) < retry_count - 1)]
        rw [retryGo, dif_pos (by decide : (1 : Nat) < retry_count)]
        rcases hf1 : f 1 with _ | ⟨v1, a1⟩
        · simp only [if_neg (by decide : ¬(1 : Nat) = retry_count - 1)]
          rw [retryGo, dif_pos (by decide : (2 : Nat) < retry_count)]
          rcases hf2 : f 2 with _ | ⟨v2, a2⟩
          · exact ⟨.reraised, by simp [retry_count]⟩
          · cases a2 with
            | true => exact absurd hf2 (h2 v2)
            | false =>
              simp only [if_neg (by decide : ¬(2 : Nat) < retry_count - 1)]
              rw [retryGo, dif_neg (by decide : ¬(3 : Nat) < retry_count)]
              exact ⟨.exhausted, rfl⟩
        · cases a1 with
          | true => exact absurd hf1 (h1 v1)
          | false =>
            simp only [if_pos (by decide : (1 : Nat) < retry_count - 1)]
            rw [retryGo, dif_pos (by decide : (2 : Nat) < retry_count)]
            rcases hf2 : f 2 with _ | ⟨v2, a2⟩
            · exact ⟨.reraised, by simp [retry_count]⟩
            · cases a2 with
              | true => exact absurd hf2 (h2 v2)
              | false =>
                simp only [if_neg (by decide : ¬(2 : Nat) < retry_count - 1)]
                rw [retryGo, dif_neg (by decide : ¬(3 : Nat) < retry_count)]
                exact ⟨.exhausted, rfl⟩
  · intro f hfail
    obtain ⟨v0, h0⟩ := hfail 0 (by decide)
    obtain ⟨v1, h1⟩ := hfail 1 (by decide)
    obtain ⟨v2, h2⟩ := hfail 2 (by decide)
    rw [retry_on_auth_error, retryGo, dif_pos (by decide : (0 : Nat) < retry_count), h0]
    simp only [if_pos (by decide : (0 : Nat) < retry_count - 1)]
    rw [retryGo, dif_pos (by decide : (1 : Nat) < retry_count), h1]
    simp only [if_pos (by decide : (1 : Nat) < retry_count - 1)]
    rw [retryGo, dif_pos (by decide : (2 : Nat) < retry_count), h2]
    simp only [if_neg (by decide : ¬(2 : Nat) < retry_count - 1)]
    rw [retryGo, dif_neg (by decide : ¬(3 : Nat) < retry_count)]
  · intro f
    have hc : (retry_on_auth_error f).calls ≤ retry_count := by
      have := retryGo_calls f 0 0 0
      simpa [retry_on_auth_error] using this
    exact ⟨rfl, rfl, rfl, hc, hc, hc⟩

/-- Witness for C4: a body whose auth check always fails is called exactly 3
times, refreshes twice, and the wrapper raises. -/
theorem C4_witness :
    retry_on_auth_error (fun _ => .returns 0 false) =
      ⟨.error .exhausted, 3, 2⟩
    ∧ (retry_on_auth_error (fun _ => .returns 0 false)).calls ≤ retry_count := by
  constructor
  · exact C4_retry_bounded.2.2.2.1 (fun _ => .returns 0 false)
      (fun i _ => ⟨0, rfl⟩)
  · exact C4_retry_bounded.2.1 (fun _ => .returns 0 false)

/-! ## CaptchaSolverAgent: `preprocess_image` (`captcha_solver_agent.py`)

An image is a row-major grid of RGB pixels (channel values are the exact
`uint8` contents; numpy subtracts the `int64` target so the distance test is
exact integer arithmetic).  The PIL library calls are inputs: `decode` is
`Image.open` + `convert('RGB')` + `np.array` (`none` when opening the bytes
raises), `grayscale` is `convert('L')`, `enhanceContrast` is
`ImageEnhance.Contrast(...).enhance(2.0)`, and `encodePNG` is
`save(..., format='PNG')`.  The red-line removal in between is the source's
own numpy arithmetic, embedded exactly. -/

/-- An RGB pixel. -/
structure Pixel where
  r : Nat
  g : Nat
  b : Nat
deriving DecidableEq

/-- An RGB image as rows of pixels. -/
abbrev RgbImage := List (List Pixel)

/-- A grayscale image. -/
abbrev GrayImage := List (List Nat)

/-- The numpy mask `np.all(np.abs(img - [239, 0, 9]) <= 20, axis=2)`:
per-channel distance from `#EF0009` at most the tolerance 20. -/
def isTargetRed (p : Pixel) : Bool :=
  decide (((p.r : Int) - 239).natAbs ≤ 20) &&
  decide (((p.g : Int) - 0).natAbs ≤ 20) &&
  decide (((p.b : Int) - 9).natAbs ≤ 20)

/-- `img_array[red_mask] = [255, 255, 255]`. -/
def removeRed (img : RgbImage) : RgbImage :=
  img.map (fun row => row.map (fun p => if isTargetRed p then ⟨255, 255, 255⟩ else p))

/-- The PIL calls `preprocess_image` makes, supplied as inputs. -/
structure PilEnv where
  decode : List Nat → Option RgbImage
  grayscale : RgbImage → GrayImage
  enhanceContrast : GrayImage → GrayImage
  encodePNG : GrayImage → List Nat

/-- `CaptchaSolverAgent.preprocess_image`: decode, remove the red `#EF0009`
interference, convert to grayscale, enhance contrast (2.0), re-encode as PNG;
the `except` clause returns `None` instead of raising. -/
def preprocess_image (env : PilEnv) (image_data : List Nat) : Option (List Nat) :=
  match env.decode image_data with
  | none => none
  | some img =>
    some (env.encodePNG (env.enhanceContrast (env.grayscale (removeRed img))))

/-- C5: `preprocess_image` is exactly the pipeline decode → replace every
pixel within per-channel distance 20 of `#EF0009 = (239, 0, 9)` by white →
grayscale → contrast 2.0 → PNG bytes, and returns `None` on failure; the
red-replacement step touches a pixel iff it is within tolerance. -/
theorem C5_preprocess_pipeline :
    (∀ (env : PilEnv) (data : List Nat) (img : RgbImage),
      env.decode data = some img →
      preprocess_image env data =
        some (env.encodePNG (env.enhanceContrast (env.grayscale (removeRed img)))))
    ∧ (∀ (env : PilEnv) (data : List Nat),
        env.decode data = none → preprocess_image env data = none)
    ∧ (∀ p : Pixel,
        (isTargetRed p = true ↔
          ((p.r : Int) - 239).natAbs ≤ 20 ∧ p.g ≤ 20 ∧ ((p.b : Int) - 9).natAbs ≤ 20))
    ∧ (∀ img : RgbImage, removeRed img =
        img.map (fun row => row.map
          (fun p => if isTargetRed p then ⟨255, 255, 255⟩ else p))) := by
  refine ⟨?_, ?_, ?_, fun _ => rfl⟩
  · intro env data img h
    rw [preprocess_image, h]
  · intro env data h
    rw [preprocess_image, h]
  · intro p
    rw [isTargetRed]
    simp only [Bool.and_eq_true, decide_eq_true_eq]
    constructor
    · rintro ⟨⟨h1, h2⟩, h3⟩
      refine ⟨h1, ?_, h3⟩
      omega
    · rintro ⟨h1, h2, h3⟩
      exact ⟨⟨h1, by omega⟩, h3⟩

/-- Witness for C5: the exact red `(239, 0, 9)` becomes white, a near-red
`(220, 15, 20)` (all channel distances ≤ 20) becomes white, and `(239, 0, 30)`
(blue distance 21) survives; a failing decode yields `None`. -/
theorem C5_witness :
    removeRed [[⟨239, 0, 9⟩, ⟨220, 15, 20⟩, ⟨239, 0, 30⟩]] =
      [[⟨255, 255, 255⟩, ⟨255, 255, 255⟩, ⟨239, 0, 30⟩]]
    ∧ preprocess_image ⟨fun _ => none, fun _ => [], fun g => g, fun _ => []⟩ [1] = none := by
  constructor
  · rw [C5_preprocess_pipeline.2.2.2]
    decide
  · exact C5_preprocess_pipeline.2.1 ⟨fun _ => none, fun _ => [], fun g => g, fun _ => []⟩
      [1] rfl

/-! ## CaptchaSolverAgent: `recognize_text` and `solve_captcha`
(`captcha_solver_agent.py`)

The DdddOcr model and the preprocessing result are inputs: `preprocess` is
`self.preprocess_image` (`none` = returned `None`), `classify` is
`self.model.classification` (`none` = raised).  `aiReady` is
`self.mode == "ai" and self.model is not None`; `get_manual_input`'s result is
the input `manualInput`. -/

/-- The environment of OCR calls. -/
structure OcrEnv where
  preprocess : List Nat → Option (List Nat)
  classify : List Nat → Option String

/-- The dict returned by `recognize_text`, with its optional keys as flags. -/
structure RecogResult where
  code : String
  confidence : Rat
  errorKey : Bool
  manual_input_required : Bool
deriving DecidableEq

/-- The second OCR attempt of `recognize_text`, on the original image. -/
def recognizeOriginal (env : OcrEnv) (image_data : List Nat) : RecogResult :=
  match env.classify image_data with
  | some r =>
    if pyStrip r ≠ "" then ⟨pyStrip r, 8/10, false, false⟩
    else ⟨"", 0, false, true⟩
  | none => ⟨"", 0, false, true⟩

/-- `CaptchaSolverAgent.recognize_text`: in AI mode, OCR on the preprocessed
image first (confidence 0.95), then on the original image (confidence 0.8),
else an empty code with confidence 0.0 and `manual_input_required`. -/
def recognize_text (env : OcrEnv) (aiReady : Bool) (image_data : List Nat) :
    RecogResult :=
  if aiReady then
    match env.preprocess image_data with
    | none => ⟨"", 0, true, false⟩
    | some processed =>
      match env.classify processed with
      | some r =>
        if pyStrip r ≠ "" then ⟨pyStrip r, 95/100, false, false⟩
        else recognizeOriginal env image_data
      | none => recognizeOriginal env image_data
  else ⟨"", 0, false, true⟩

/-- `CaptchaSolverAgent.solve_captcha`: the recognized code when it is
non-empty with confidence above 0.5, else the manual input when
`manual_fallback`, else the empty string. -/
def solve_captcha (env : OcrEnv) (aiReady : Bool) (manualInput : String)
    (image_data : List Nat) (manual_fallback : Bool) : String :=
  let result := recognize_text env aiReady image_data
  if result.code ≠ "" ∧ (1 : Rat)/2 < result.confidence then result.code
  else if manual_fallback then manualInput
  else ""

/-- C1: `solve_captcha` returns the recognized code exactly when
`recognize_text` yields a non-empty code with confidence above 0.5, else the
manual input when `manual_fallback` is true and the empty string otherwise;
and in AI mode `recognize_text` reports the preprocessed-image OCR at
confidence 0.95, falls back to the original image at 0.8, and yields an empty
code, confidence 0.0 and `manual_input_required` when both attempts fail. -/
theorem C1_solve_captcha_chain :
    (∀ (env : OcrEnv) (ai : Bool) (mi : String) (img : List Nat) (fb : Bool),
      ((recognize_text env ai img).code ≠ "" ∧
          (1 : Rat)/2 < (recognize_text env ai img).confidence →
        solve_captcha env ai mi img fb = (recognize_text env ai img).code)
      ∧ (¬((recognize_text env ai img).code ≠ "" ∧
            (1 : Rat)/2 < (recognize_text env ai img).confidence) →
          solve_captcha env ai mi img fb = if fb then mi else ""))
    ∧ (∀ (env : OcrEnv) (img pb : List Nat) (r : String),
        env.preprocess img = some pb → env.classify pb = some r → pyStrip r ≠ "" →
        recognize_text env true img = ⟨pyStrip r, 95/100, false, false⟩)
    ∧ (∀ (env : OcrEnv) (img pb : List Nat) (r : String),
        env.preprocess img = some pb →
        (env.classify pb = none ∨ env.classify pb = some "") →
        env.classify img = some r → pyStrip r ≠ "" →
        recognize_text env true img = ⟨pyStrip r, 8/10, false, false⟩)
    ∧ (∀ (env : OcrEnv) (img pb : List Nat),
        env.preprocess img = some pb →
        (env.classify pb = none ∨ env.classify pb = some "") →
        (env.classify img = none ∨ env.classify img = some "") →
        recognize_text env true img = ⟨"", 0, false, true⟩) := by
  refine ⟨?_, ?_, ?_, ?_⟩
  · intro env ai mi img fb
    constructor
    · intro h
      rw [solve_captcha, if_pos h]
    · intro h
      rw [solve_captcha, if_neg h]
  · intro env img pb r hp hc hr
    simp [recognize_text, hp, hc, hr]
  · intro env img pb r hp hc hcr hr
    have horig : recognizeOriginal env img = ⟨pyStrip r, 8/10, false, false⟩ := by
      simp [recognizeOriginal, hcr, hr]
    rcases hc with hc | hc <;>
      simp [recognize_text, hp, hc, horig, show pyStrip "" = "" from by decide]
  · intro env img pb hp hc hcr
    have horig : recognizeOriginal env img = ⟨"", 0, false, true⟩ := by
      rcases hcr with hcr | hcr <;>
        simp [recognizeOriginal, hcr, show pyStrip "" = "" from by decide]
    rcases hc with hc | hc <;>
      simp [recognize_text, hp, hc, horig, show pyStrip "" = "" from by decide]

/-- An OCR environment whose model reads `" 7a9cB "` off the preprocessed
image. -/
def ocrEnvA : OcrEnv :=
  ⟨fun _ => some [9], fun b => if b = [9] then some " 7a9cB " else none⟩

/-- An OCR environment whose model always raises. -/
def ocrEnvFail : OcrEnv := ⟨fun _ => some [9], fun _ => none⟩

/-- Witness for C1: an OCR that reads `" 7a9cB "` off the preprocessed image
gives the stripped code at confidence 0.95 and `solve_captcha` returns it; an
OCR that always fails falls back to manual input, or to `""` when the manual
fallback is disabled. -/
theorem C1_witness :
    recognize_text ocrEnvA true [1] = ⟨"7a9cB", 95/100, false, false⟩
    ∧ solve_captcha ocrEnvA true "manual" [1] true = "7a9cB"
    ∧ solve_captcha ocrEnvFail true "manual" [1] true = "manual"
    ∧ solve_captcha ocrEnvFail true "manual" [1] false = "" := by
  have hlt : (1 : Rat) / 2 < 95 / 100 := by norm_num
  have henv : recognize_text ocrEnvA true [1] = ⟨"7a9cB", 95/100, false, false⟩ := by
    rw [C1_solve_captcha_chain.2.1 ocrEnvA [1] [9] " 7a9cB " rfl (by decide) (by decide)]
    have hs : pyStrip " 7a9cB " = "7a9cB" := by decide
    rw [hs]
  have hfail : recognize_text ocrEnvFail true [1] = ⟨"", 0, false, true⟩ :=
    C1_solve_captcha_chain.2.2.2 ocrEnvFail [1] [9] rfl (Or.inl rfl) (Or.inl rfl)
  refine ⟨henv, ?_, ?_, ?_⟩
  · have h := (C1_solve_captcha_chain.1 ocrEnvA true "manual" [1] true).1
    rw [henv] at h
    rw [h ⟨by simp, hlt⟩]
  · have h := (C1_solve_captcha_chain.1 ocrEnvFail true "manual" [1] true).2
    rw [hfail] at h
    rw [h (by simp)]
    rfl
  · have h := (C1_solve_captcha_chain.1 ocrEnvFail true "manual" [1] false).2
    rw [hfail] at h
    rw [h (by simp)]
    rfl

/-! ## BrowserAgent: `select_course` outcome decision (`browser_agent.py`)

After submission, `_select` decides success from: the captured alert dialog
messages, the combined page content `final_content`, and three deeper probes.
The keyword matching is embedded exactly; the I/O observed by the deeper
probes is an input `DeepEnv`: the page title text (if a `<title>` is found),
the `selected_courses` ids when the re-fetch of the course list returns a
dict holding that key (`none` when the re-fetch fails or lacks the key), and
the page contents observed after each redirect-bearing script. -/

/-- The success keywords checked against each alert message. -/
def alert_success_keywords : List String := ["成功", "已选", "选课成功"]

/-- The failure keywords checked against each alert message. -/
def alert_error_keywords : List String := ["失败", "错误", "验证码", "已满"]

/-- `success_keywords` for the page-content scan. -/
def success_keywords : List String := ["成功", "已选", "选课成功", "添加成功"]

/-- `error_keywords` for the page-content scan. -/
def error_keywords : List String := ["失败", "错误", "验证码", "已满", "时间", "冲突", "重复"]

/-- The loop over `alert_messages`: the first message containing a success
keyword returns `True`; otherwise a failure keyword returns `False`;
a message with neither is skipped. -/
def alertScan : List String → Option Bool
  | [] => none
  | m :: rest =>
    if anyKeyword alert_success_keywords m then some true
    else if anyKeyword alert_error_keywords m then some false
    else alertScan rest

/-- The loop over redirect-bearing scripts: each redirected page content is
scanned for the success then error keywords; an undecided content moves on. -/
def redirectScan : List String → Option Bool
  | [] => none
  | rc :: rest =>
    if anyKeyword success_keywords rc then some true
    else if anyKeyword error_keywords rc then some false
    else redirectScan rest

/-- The I/O observed by the deeper probes of the outcome decision. -/
structure DeepEnv where
  titleText : Option String
  refetchSelected : Option (List String)
  redirectContents : List String

/-- The deeper checks run when neither keyword list matches the content:
page title, return-to-main-page re-fetch, redirect contents, then the final
`return False`. -/
def deepCheck (course_id : String) (content : String) (env : DeepEnv) : Bool :=
  let titleDecision : Option Bool :=
    match env.titleText with
    | some t =>
      if anyKeyword success_keywords t then some true
      else if anyKeyword error_keywords t then some false
      else none
    | none => none
  match titleDecision with
  | some b => b
  | none =>
    let refetchDecision : Option Bool :=
      if pyIn "选课" content && pyIn "课程列表" content then
        match env.refetchSelected with
        | some ids => some (ids.contains course_id)
        | none => none
      else none
    match refetchDecision with
    | some b => b
    | none =>
      match redirectScan env.redirectContents with
      | some b => b
      | none => false

/-- The outcome decision of `BrowserAgent.select_course` after submission:
alert messages first, then the combined page content, then the deep checks. -/
def select_course_outcome (course_id : String) (alerts : List String)
    (content : String) (env : DeepEnv) : Bool :=
  match alertScan alerts with
  | some b => b
  | none =>
    if anyKeyword success_keywords content then true
    else if anyKeyword error_keywords content then false
    else deepCheck course_id content env

/-- C2: the outcome is decided by keyword matching: alert messages are checked
first (success keywords returning `True`, failure keywords `False`); otherwise
the combined page content returns `True` on a success keyword, `False` on an
error keyword, and `False` when no indicator at all can be found. -/
theorem C2_select_course_keywords :
    (∀ (cid : String) (alerts : List String) (content : String) (env : DeepEnv) (b : Bool),
      alertScan alerts = some b → select_course_outcome cid alerts content env = b)
    ∧ (∀ (m : String) (rest : List String),
        (anyKeyword alert_success_keywords m = true → alertScan (m :: rest) = some true)
        ∧ (anyKeyword alert_success_keywords m = false →
            anyKeyword alert_error_keywords m = true → alertScan (m :: rest) = some false)
        ∧ (anyKeyword alert_success_keywords m = false →
            anyKeyword alert_error_keywords m = false → alertScan (m :: rest) = alertScan rest))
    ∧ (∀ (cid : String) (alerts : List String) (content : String) (env : DeepEnv),
        alertScan alerts = none → anyKeyword success_keywords content = true →
        select_course_outcome cid alerts content env = true)
    ∧ (∀ (cid : String) (alerts : List String) (content : String) (env : DeepEnv),
        alertScan alerts = none → anyKeyword success_keywords content = false →
        anyKeyword error_keywords content = true →
        select_course_outcome cid alerts content env = false)
    ∧ (∀ (cid : String) (alerts : List String) (content : String) (env : DeepEnv),
        alertScan alerts = none → anyKeyword success_keywords content = false →
        anyKeyword error_keywords content = false →
        env.titleText = none → env.refetchSelected = none →
        redirectScan env.redirectContents = none →
        select_course_outcome cid alerts content env = false) := by
  refine ⟨?_, ?_, ?_, ?_, ?_⟩
  · intro cid alerts content env b h
    rw [select_course_outcome, h]
  · intro m rest
    refine ⟨?_, ?_, ?_⟩
    · intro h
      rw [alertScan, if_pos h]
    · intro h1 h2
      rw [alertScan, if_neg (by simp [h1]), if_pos h2]
    · intro h1 h2
      rw [alertScan, if_neg (by simp [h1]), if_neg (by simp [h2])]
  · intro cid alerts content env ha hs
    rw [select_course_outcome, ha]
    simp only [if_pos hs]
  · intro cid alerts content env ha hs he
    rw [select_course_outcome, ha]
    simp only [hs, Bool.false_eq_true, if_false, if_pos he]
  · intro cid alerts content env ha hs he ht hr hrd
    rw [select_course_outcome, ha]
    simp only [hs, he, Bool.false_eq_true, if_false]
    rw [deepCheck, ht]
    simp only
    rw [hr]
    by_cases hcc : (pyIn "选课" content && pyIn "课程列表" content) = true
    · simp only [hcc, if_true, hrd]
    · simp only [Bool.not_eq_true] at hcc
      simp only [hcc, Bool.false_eq_true, if_false, hrd]

/-- Witness for C2 at concrete pages: a captured alert `"选课成功"` decides
success regardless of the page; a keyword-free alert falls through to the page
content, where `"该课程已满"` decides failure; and a page with no indicator at
all yields `False`. -/
theorem C2_witness :
    select_course_outcome "C01" ["选课成功"] "" ⟨none, none, []⟩ = true
    ∧ select_course_outcome "C01" ["请稍候"] "该课程已满" ⟨none, none, []⟩ = false
    ∧ select_course_outcome "C01" [] "blank page" ⟨none, none, []⟩ = false := by
  refine ⟨?_, ?_, ?_⟩
  · exact C2_select_course_keywords.1 "C01" ["选课成功"] "" ⟨none, none, []⟩ true
      (by decide)
  · exact C2_select_course_keywords.2.2.2.1 "C01" ["请稍候"] "该课程已满"
      ⟨none, none, []⟩ (by decide) (by decide) (by decide)
  · exact C2_select_course_keywords.2.2.2.2 "C01" [] "blank page" ⟨none, none, []⟩
      (by decide) (by decide) (by decide) rfl rfl (by decide)

/-! ## BrowserAgent: `get_captcha_image` (`browser_agent.py`)

The Playwright calls are inputs: `popupQ`/`mainQ` give `query_selector` on the
newest popup page / the main page (`none` = no match), each found element
carrying its `is_visible()` result and `screenshot()` bytes; `iframeQ` gives,
per iframe selector, whether an iframe is found and whether `content_frame()`
yields a frame, and then that frame's `query_selector`.  The probe is
modelled on runs where no Playwright call raises (every `except` merely
continues).  The single `captcha_element` variable is threaded through all
three probes as in the source. -/

/-- A located element: its `is_visible()` and `screenshot()` results. -/
structure Elem where
  visible : Bool
  shot : List Nat
deriving DecidableEq

/-- The browser state the probe observes. -/
structure ProbeState where
  numPages : Nat
  popupQ : String → Option Elem
  mainQ : String → Option Elem
  iframeQ : String → Option (Option (String → Option Elem))

/-- The fixed list of nine captcha selectors. -/
def captcha_selectors : List String :=
  ["img[id*=\"yzm\"], img[src*=\"yzm\"]",
   "#verifyCodeDiv img",
   "#kaptchaImage",
   "img[src*=\"captcha\"]",
   "img[src*=\"verify\"]",
   "img[src*=\"kaptcha\"]",
   "img[onclick*=\"refresh\"], img[onclick*=\"change\"]",
   "img[alt*=\"验证码\"]",
   "img[title*=\"验证码\"]"]

/-- The iframe selectors tried in the third strategy. -/
def iframe_selectors : List String :=
  ["iframe[src*=\"xsxk\"]", "iframe[name=\"mainFrame\"]", "iframe#mainFrame",
   "iframe[src*=\"verify\"]"]

/-- One `for selector in captcha_selectors` loop: every iteration assigns
`captcha_element`; the loop breaks (second component `true`) on the first
visible match.  Returns the final value of the variable. -/
def selectorLoop (q : String → Option Elem) (carry : Option Elem) :
    List String → Option Elem × Bool
  | [] => (carry, false)
  | s :: rest =>
    match q s with
    | some e => if e.visible then (some e, true) else selectorLoop q (some e) rest
    | none => selectorLoop q none rest

/-- The first visible match over a selector list. -/
def firstVisible (q : String → Option Elem) : List String → Option Elem
  | [] => none
  | s :: rest =>
    match q s with
    | some e => if e.visible then some e else firstVisible q rest
    | none => firstVisible q rest

/-- Strategy 1: the popup probe, run only when the context has more than one
page; inside it a visible match returns its screenshot at once. -/
def popupStage (st : ProbeState) : Option Elem × Bool :=
  if 1 < st.numPages then selectorLoop st.popupQ none captcha_selectors
  else (none, false)

/-- Strategy 3: the iframe probe; a visible match inside a frame returns its
screenshot at once (`Except.error`), otherwise the `captcha_element`
variable's final value falls through (`Except.ok`). -/
def iframeLoop (st : ProbeState) (carry : Option Elem) :
    List String → Except (List Nat) (Option Elem)
  | [] => .ok carry
  | isel :: rest =>
    match st.iframeQ isel with
    | some (some q) =>
      match selectorLoop q carry captcha_selectors with
      | (some e, true) => .error e.shot
      | (c, _) => iframeLoop st c rest
    | _ => iframeLoop st carry rest

/-- `BrowserAgent.get_captcha_image` on non-raising runs: popup, then main
page, then iframes; at the end, whatever `captcha_element` holds is
screenshotted, and `None` is returned only when it holds nothing. -/
def get_captcha_image (st : ProbeState) : Option (List Nat) :=
  match popupStage st with
  | (some e, true) => some e.shot
  | (popupCarry, _) =>
    match selectorLoop st.mainQ popupCarry captcha_selectors with
    | (some e, _) => some e.shot
    | (none, _) =>
      match iframeLoop st none iframe_selectors with
      | .error b => some b
      | .ok (some e) => some e.shot
      | .ok none => none

/-- A state whose only match anywhere is a non-visible element at the last
main-page selector. -/
def probeStateC : ProbeState :=
  ⟨1, fun _ => none,
   fun s => if s = "img[title*=\"验证码\"]" then some ⟨false, [7]⟩ else none,
   fun _ => none⟩

/-- Counterexample to C3 as stated: in `probeStateC` the context has a single
page, every main-page selector match is non-visible, and no iframe exists,
yet `get_captcha_image` returns the screenshot of the non-visible element
left in `captcha_element` by the last selector instead of `None`. -/
theorem C3_counterexample :
    probeStateC.numPages = 1
    ∧ (∀ s ∈ captcha_selectors,
        (probeStateC.mainQ s).all (fun e => !e.visible) = true)
    ∧ (∀ s ∈ iframe_selectors, (probeStateC.iframeQ s).isNone = true)
    ∧ get_captcha_image probeStateC ≠ none
    ∧ get_captcha_image probeStateC = some [7] := by
  refine ⟨rfl, by decide, by decide, by decide, by decide⟩

theorem selectorLoop_firstVisible (q : String → Option Elem) (sels : List String) :
    (∀ e, firstVisible q sels = some e →
      ∀ carry, selectorLoop q carry sels = (some e, true))
    ∧ (firstVisible q sels = none → ∀ carry, (selectorLoop q carry sels).2 = false) := by
  induction sels with
  | nil =>
    refine ⟨?_, ?_⟩
    · intro e h
      rw [firstVisible] at h
      cases h
    · intro _ _
      rfl
  | cons s rest ih =>
    constructor
    · intro e h carry
      rw [firstVisible] at h
      rw [selectorLoop]
      rcases hq : q s with _ | e0
      · simp only [hq] at h ⊢
        exact ih.1 e h none
      · simp only [hq] at h ⊢
        by_cases hv : e0.visible = true
        · simp only [if_pos hv] at h ⊢
          cases h
          rfl
        · simp only [if_neg hv] at h ⊢
          exact ih.1 e h (some e0)
    · intro h carry
      rw [firstVisible] at h
      rw [selectorLoop]
      rcases hq : q s with _ | e0
      · simp only [hq] at h ⊢
        exact ih.2 h none
      · simp only [hq] at h ⊢
        by_cases hv : e0.visible = true
        · simp only [if_pos hv] at h
          cases h
        · simp only [if_neg hv] at h ⊢
          exact ih.2 h (some e0)

/-- C3 amended: the probe order is popup (only with more than one page), then
main page, then iframes, each trying the nine selectors, and the screenshot of
the first visible match of the deciding probe is returned; however, when the
main-page loop ends with `captcha_element` still holding the (non-visible)
match of its last query, the iframe probe is skipped and that element's
screenshot is returned even though it is not visible (and likewise an iframe
probe may leave a trailing non-visible match that gets screenshotted);
`None` is returned only when `captcha_element` is empty after all probes. -/
theorem C3_amended_probe :
    (∀ (st : ProbeState) (e : Elem), 1 < st.numPages →
      firstVisible st.popupQ captcha_selectors = some e →
      get_captcha_image st = some e.shot)
    ∧ (∀ (st : ProbeState) (e : Elem) (pc : Option Elem),
        popupStage st = (pc, false) →
        firstVisible st.mainQ captcha_selectors = some e →
        get_captcha_image st = some e.shot)
    ∧ (∀ (st : ProbeState) (e : Elem) (pc : Option Elem),
        popupStage st = (pc, false) →
        selectorLoop st.mainQ pc captcha_selectors = (some e, false) →
        get_captcha_image st = some e.shot)
    ∧ (∀ (st : ProbeState) (pc : Option Elem) (b : List Nat),
        popupStage st = (pc, false) →
        (selectorLoop st.mainQ pc captcha_selectors).1 = none →
        iframeLoop st none iframe_selectors = .error b →
        get_captcha_image st = some b)
    ∧ (∀ (st : ProbeState) (pc : Option Elem) (e : Elem),
        popupStage st = (pc, false) →
        (selectorLoop st.mainQ pc captcha_selectors).1 = none →
        iframeLoop st none iframe_selectors = .ok (some e) →
        get_captcha_image st = some e.shot)
    ∧ (∀ (st : ProbeState) (pc : Option Elem),
        popupStage st = (pc, false) →
        (selectorLoop st.mainQ pc captcha_selectors).1 = none →
        iframeLoop st none iframe_selectors = .ok none →
        get_captcha_image st = none) := by
  have hmain : ∀ (st : ProbeState) (pc : Option Elem) (res : Option Elem × Bool),
      popupStage st = (pc, false) →
      selectorLoop st.mainQ pc captcha_selectors = res →
      get_captcha_image st =
        (match res with
         | (some e, _) => some e.shot
         | (none, _) =>
           match iframeLoop st none iframe_selectors with
           | .error b => some b
           | .ok (some e) => some e.shot
           | .ok none => none) := by
    intro st pc res hpop hsel
    rw [get_captcha_image, hpop]
    cases pc with
    | none => simp only [hsel]
    | some pe => simp only [hsel]
  refine ⟨?_, ?_, ?_, ?_, ?_, ?_⟩
  · intro st e hn hfv
    have hsel := (selectorLoop_firstVisible st.popupQ captcha_selectors).1 e hfv none
    rw [get_captcha_image, popupStage, if_pos hn, hsel]
  · intro st e pc hpop hfv
    have hsel := (selectorLoop_firstVisible st.mainQ captcha_selectors).1 e hfv pc
    rw [hmain st pc (some e, true) hpop hsel]
  · intro st e pc hpop hsel
    rw [hmain st pc (some e, false) hpop hsel]
  · intro st pc b hpop hsel hif
    rcases hres : selectorLoop st.mainQ pc captcha_selectors with ⟨fst, snd⟩
    rw [hres] at hsel
    cases fst with
    | some e => cases hsel
    | none =>
      rw [hmain st pc (none, snd) hpop hres]
      rw [hif]
  · intro st pc e hpop hsel hif
    rcases hres : selectorLoop st.mainQ pc captcha_selectors with ⟨fst, snd⟩
    rw [hres] at hsel
    cases fst with
    | some e0 => cases hsel
    | none =>
      rw [hmain st pc (none, snd) hpop hres]
      rw [hif]
  · intro st pc hpop hsel hif
    rcases hres : selectorLoop st.mainQ pc captcha_selectors with ⟨fst, snd⟩
    rw [hres] at hsel
    cases fst with
    | some e0 => cases hsel
    | none =>
      rw [hmain st pc (none, snd) hpop hres]
      rw [hif]

/-- A state with a visible captcha image at the fourth main-page selector. -/
def probeStateV : ProbeState :=
  ⟨1, fun _ => none,
   fun s => if s = "img[src*=\"captcha\"]" then some ⟨true, [5]⟩ else none,
   fun _ => none⟩

/-- Witness for the amended C3: a visible main-page match is screenshotted,
and the non-visible trailing match of `probeStateC` is screenshotted with the
iframe probe skipped. -/
theorem C3_amended_witness :
    get_captcha_image probeStateV = some [5]
    ∧ get_captcha_image probeStateC = some [7] := by
  constructor
  · exact C3_amended_probe.2.1 probeStateV ⟨true, [5]⟩ none (by decide) (by decide)
  · exact C3_amended_probe.2.2.1 probeStateC ⟨false, [7]⟩ none (by decide) (by decide)

end Ybu
